import Mathlib

/-!
# BlueShield coastal early-warning core: a shallow embedding

This file embeds the risk-assessment core of the BlueShield repository in
Lean 4 and proves properties of it.  Numeric computation is modelled over
`ℚ` (exact rational arithmetic standing in for Python floats).  JSON-ish
field values that may be non-numeric are modelled by `JVal`; absent fields
by `Option`.  The external predictors (LSTM forecaster, isolation forest)
are opaque in the source, so they appear here as function parameters; the
trigonometric `sin` used only in the dead `wind_pressure` intermediate is
likewise abstracted as a function parameter `sinFn`.

Embedded source:
* `data/weather_collector.py` — `_extract_single_feature`,
  `extract_flood_risk_features`;
* `src/api/prediction_api.py` — the `/predict/` and `/predict-live/`
  endpoint bodies (`predict`, `predict_live`), including the inline risk
  classification at each of the two call sites and the HTTP error mapping.
-/

namespace BlueShield

/-- A JSON-ish scalar field value: either a number or a non-numeric value
(modelled as a string).  A non-numeric value makes the Python arithmetic in
the extractor raise, which the `try/except` maps to the fallback `5.0`. -/
inductive JVal where
  | num (q : ℚ)
  | str (s : String)
deriving DecidableEq, Repr

/-- Numeric view of a field value; `none` when the value is non-numeric. -/
def JVal.asNum : JVal → Option ℚ
  | .num q => some q
  | .str _ => none

/-- The `"main"` sub-object of a weather item (`pressure`, `humidity`,
`temp` keys, each possibly absent). -/
structure MainData where
  pressure : Option JVal
  humidity : Option JVal
  temp : Option JVal
deriving DecidableEq, Repr

/-- The `"wind"` sub-object of a weather item (`speed`, `deg` keys). -/
structure WindData where
  speed : Option JVal
  deg : Option JVal
deriving DecidableEq, Repr

/-- One raw weather observation as consumed by the extractor:
`weather_item.get('main', {})` / `weather_item.get('wind', {})` in the
source, so each sub-object may itself be absent. -/
structure WeatherItem where
  main : Option MainData
  wind : Option WindData
deriving DecidableEq, Repr

/-- `weather_item.get('main', {}).get('pressure', 1013.25)` -/
def WeatherItem.getPressure (w : WeatherItem) : JVal :=
  (w.main.bind MainData.pressure).getD (.num (101325/100))

/-- `weather_item.get('wind', {}).get('speed', 0)` -/
def WeatherItem.getWindSpeed (w : WeatherItem) : JVal :=
  (w.wind.bind WindData.speed).getD (.num 0)

/-- `weather_item.get('wind', {}).get('deg', 0)` -/
def WeatherItem.getWindDeg (w : WeatherItem) : JVal :=
  (w.wind.bind WindData.deg).getD (.num 0)

/-- `weather_item.get('main', {}).get('humidity', 50)` -/
def WeatherItem.getHumidity (w : WeatherItem) : JVal :=
  (w.main.bind MainData.humidity).getD (.num 50)

/-- `weather_item.get('main', {}).get('temp', 15)` -/
def WeatherItem.getTemp (w : WeatherItem) : JVal :=
  (w.main.bind MainData.temp).getD (.num 15)

/-- `OpenWeatherCollector._extract_single_feature` from
`data/weather_collector.py`.  The five fields are fetched with their
defaults; if any fetched value is non-numeric the arithmetic raises and the
`except` clause returns the safe default `5.0`.  `sinFn` abstracts
`np.sin(np.radians(·))`, used only by the dead `wind_pressure` binding. -/
def extractSingleFeature (sinFn : ℚ → ℚ) (w : WeatherItem) : ℚ :=
  match w.getPressure.asNum, w.getWindSpeed.asNum, w.getWindDeg.asNum,
        w.getHumidity.asNum, w.getTemp.asNum with
  | some pressure, some wind_speed, some wind_deg, some humidity, some temp =>
      let _wind_pressure := wind_speed * sinFn wind_deg
      let pressure_factor := (101325/100 - pressure) / 20
      let wind_factor := wind_speed / 10
      let humidity_factor := humidity / 100
      let flood_risk_score := pressure_factor + wind_factor + humidity_factor + temp / 50
      max 0 (flood_risk_score * 3 + 5)
  | _, _, _, _, _ => 5

/-- `OpenWeatherCollector.extract_flood_risk_features` from
`data/weather_collector.py`, list branch: iterate over the items and append
a feature only for items containing the `'main'` key. -/
def extractFloodRiskFeatures (sinFn : ℚ → ℚ) (weather_data : List WeatherItem) :
    List ℚ :=
  (weather_data.filter (fun item => item.main.isSome)).map
    (extractSingleFeature sinFn)

/-- Building a fully-numeric observation from five rationals. -/
def mkNumItem (pressure wind_speed wind_deg humidity temp : ℚ) : WeatherItem :=
  { main := some { pressure := some (.num pressure),
                   humidity := some (.num humidity),
                   temp := some (.num temp) },
    wind := some { speed := some (.num wind_speed), deg := some (.num wind_deg) } }

/-- An observation with every field absent (all defaults apply). -/
def emptyItem : WeatherItem := { main := none, wind := none }

/-- Replace every absent field of an observation by its documented default
value (pressure 1013.25, wind speed 0, wind direction 0, humidity 50,
temperature 15). -/
def fillDefaults (w : WeatherItem) : WeatherItem :=
  { main := some { pressure := some w.getPressure,
                   humidity := some w.getHumidity,
                   temp := some w.getTemp },
    wind := some { speed := some w.getWindSpeed, deg := some w.getWindDeg } }

/-- All five fetched field values (after defaulting) are numeric. -/
def WeatherItem.allNumeric (w : WeatherItem) : Bool :=
  w.getPressure.asNum.isSome && w.getWindSpeed.asNum.isSome &&
  w.getWindDeg.asNum.isSome && w.getHumidity.asNum.isSome &&
  w.getTemp.asNum.isSome

/-! ## The API layer (`src/api/prediction_api.py`) -/

/-- `risk_level` values produced by the endpoints. -/
inductive RiskLevel where
  | LOW
  | MEDIUM
  | HIGH
deriving DecidableEq, Repr

/-- The alert string of the anomaly branch. -/
def anomalyAlert : String := "🚨 ANOMALY DETECTED - Unusual patterns in data!"

/-- The alert string of the forecast-threshold branch. -/
def floodAlert : String := "⚠️ FLOOD RISK ALERT - High water levels predicted!"

/-- `FORECAST_THRESHOLD = 8.0` -/
def FORECAST_THRESHOLD : ℚ := 8

/-- `EXPECTED_TIME_STEPS = 40` -/
def EXPECTED_TIME_STEPS : Nat := 40

/-- The risk-classification block of the `/predict/` endpoint
(`prediction_api.py`, the `if anomaly == -1 / elif forecast > ... ` chain
inside `predict`), written as a pure function of the forecast and the raw
isolation-forest verdict (`-1` = anomalous). -/
def classifyPredict (forecast : ℚ) (anomaly : Int) : RiskLevel × Option String :=
  let alert : Option String := none
  let risk_level : RiskLevel := .LOW
  if anomaly = -1 then (.HIGH, some anomalyAlert)
  else if forecast > FORECAST_THRESHOLD then (.HIGH, some floodAlert)
  else if forecast > 13/2 then (.MEDIUM, alert)
  else (risk_level, alert)

/-- The risk-classification block of the `/predict-live/{location}`
endpoint (`prediction_api.py`, the duplicated `if anomaly == -1 / elif ...`
chain inside `predict_live`). -/
def classifyLive (forecast : ℚ) (anomaly : Int) : RiskLevel × Option String :=
  let alert : Option String := none
  let risk_level : RiskLevel := .LOW
  if anomaly = -1 then (.HIGH, some anomalyAlert)
  else if forecast > FORECAST_THRESHOLD then (.HIGH, some floodAlert)
  else if forecast > 13/2 then (.MEDIUM, alert)
  else (risk_level, alert)

/-- An `HTTPException` as it reaches the caller: status code and detail. -/
structure HErr where
  status : Nat
  detail : String
deriving DecidableEq, Repr

/-- Successful response body of `/predict/` (dynamic fields only;
`timestamp` is wall-clock and is not modelled). -/
structure PredResp where
  forecast : ℚ
  anomaly : Int
  risk_level : RiskLevel
  alert : Option String
  data_source : String
deriving DecidableEq, Repr

/-- The single scalar sample handed to the isolation forest:
`np.array([[x[-1]]])` — only the last feature value of the window.
(`x[-1]` exists on every path that reaches it, since the length check has
already passed; the `getD` default is unreachable there.) -/
def anomalySample (x : List ℚ) : ℚ := x.getLastD 0

/-- The `/predict/` endpoint body (`predict` in `prediction_api.py`).
`modelsLoaded` reflects the startup model-load state; `lstm` and `iso` are
the two opaque model handles.  The length validation happens before the
`try` block, so its 400 error is never rewrapped; the model calls are pure
functions here, so the inner `except` path is unreachable in the model. -/
def predict (modelsLoaded : Bool) (lstm : List ℚ → ℚ) (iso : ℚ → Int)
    (features : List ℚ) : Except HErr PredResp :=
  if modelsLoaded = false then .error ⟨500, "Models not loaded"⟩
  else if features.length ≠ EXPECTED_TIME_STEPS then
    .error ⟨400, "Input features length must be " ++ toString EXPECTED_TIME_STEPS⟩
  else
    let forecast := lstm features
    let anomaly := iso (anomalySample features)
    let ra := classifyPredict forecast anomaly
    .ok ⟨forecast, anomaly, ra.1, ra.2, "Input Features"⟩

/-- Successful response body of `/predict-live/{location}` (dynamic fields;
`timestamp` not modelled). -/
structure LiveResp where
  forecast : ℚ
  anomaly : Int
  risk_level : RiskLevel
  alert : Option String
  data_source : String
  average_feature : ℚ
  min_feature : ℚ
  max_feature : ℚ
deriving DecidableEq, Repr

/-- `np.mean` over a feature list. -/
def listMean (l : List ℚ) : ℚ := l.sum / l.length

/-- `np.min` over a (nonempty on every use) feature list. -/
def listMin (l : List ℚ) : ℚ := l.foldl min (l.headD 0)

/-- `np.max` over a (nonempty on every use) feature list. -/
def listMax (l : List ℚ) : ℚ := l.foldl max (l.headD 0)

/-- `str(e)` of the fastapi `HTTPException(400, "Not enough forecast data
for prediction")` raised inside the `try` block of `predict_live`
(starlette formats it as `"<status>: <detail>"`). -/
def notEnoughStr : String := "400: Not enough forecast data for prediction"

/-- The `/predict-live/{location}` endpoint body (`predict_live` in
`prediction_api.py`) after its guard clauses (models loaded, weather
collector configured, location known) have passed; `items` is
`forecast_data.get('list', [])` from the weather collaborator.  Every
feature is extracted with `_extract_single_feature` (no `'main'` filter on
this path), the list is truncated to its last `EXPECTED_TIME_STEPS`
elements, and the length check runs INSIDE the `try` block: its
`HTTPException(400, ...)` is caught by the blanket `except Exception` and
re-raised as a 500 `"Live prediction error: ..."`. -/
def predictLive (sinFn : ℚ → ℚ) (lstm : List ℚ → ℚ) (iso : ℚ → Int)
    (items : List WeatherItem) : Except HErr LiveResp :=
  let features0 := items.map (extractSingleFeature sinFn)
  let features := features0.drop (features0.length - EXPECTED_TIME_STEPS)
  if features.length < EXPECTED_TIME_STEPS then
    .error ⟨500, "Live prediction error: " ++ notEnoughStr⟩
  else
    let forecast := lstm features
    let anomaly := iso (anomalySample features)
    let ra := classifyLive forecast anomaly
    .ok ⟨forecast, anomaly, ra.1, ra.2, "OpenWeather Forecast API",
         listMean features, listMin features, listMax features⟩

/-! ## Theorems -/

/-- The decision table stated by the specification for the risk classifier
(§4.5), written from the spec's words: first match wins, anomaly first,
then the high threshold 8.0, then the medium threshold 6.5. -/
def classifySpecTable (forecast : ℚ) (anomalous : Bool) : RiskLevel × Option String :=
  if anomalous then (.HIGH, some anomalyAlert)
  else if 8 < forecast then (.HIGH, some floodAlert)
  else if 13/2 < forecast then (.MEDIUM, none)
  else (.LOW, none)

/-- C1: the `/predict/` risk classifier implements the first-match-wins
decision policy: ANOMALOUS (`anomaly == -1`) gives HIGH with the
anomaly-branch alert regardless of the forecast (even above the high
threshold); otherwise forecast > 8.0 gives HIGH with the flood-risk alert;
otherwise forecast > 6.5 gives MEDIUM with no alert; otherwise LOW with no
alert. -/
theorem classifyPredict_eq_spec_table (forecast : ℚ) (anomaly : Int) :
    classifyPredict forecast anomaly
      = classifySpecTable forecast (decide (anomaly = -1)) := by
  unfold classifyPredict classifySpecTable FORECAST_THRESHOLD
  by_cases h : anomaly = -1 <;> simp [h, gt_iff_lt]

/-- C2: on a fully-numeric observation the extractor computes
`max 0 (((1013.25 - pressure)/20 + wind/10 + humidity/100 + temp/50)*3 + 5)`;
on the all-defaults observation it returns exactly 7.4 = 37/5. -/
theorem extract_formula_and_default (sinFn : ℚ → ℚ) (p w d h t : ℚ) :
    extractSingleFeature sinFn (mkNumItem p w d h t)
        = max 0 (((101325/100 - p) / 20 + w / 10 + h / 100 + t / 50) * 3 + 5)
    ∧ extractSingleFeature sinFn (mkNumItem (101325/100) 0 0 50 15) = 37/5 := by
  constructor
  · rfl
  · norm_num [extractSingleFeature, mkNumItem, WeatherItem.getPressure,
      WeatherItem.getWindSpeed, WeatherItem.getWindDeg, WeatherItem.getHumidity,
      WeatherItem.getTemp, JVal.asNum]

/-- An observation with a non-numeric pressure field and several absent
fields, used to exercise the fallback path. -/
def strItem : WeatherItem :=
  { main := some { pressure := some (.str "n/a"), humidity := none, temp := none },
    wind := none }

/-- C3: the extractor is total (it is a Lean function into `ℚ`); absent
fields are equivalent to their documented defaults (the result on any
observation equals the result on the same observation with every absent
field filled by its default), and whenever any fetched field value is
non-numeric — the case where the Python arithmetic raises — the result is
the fixed fallback 5.0. -/
theorem extract_total_defaults_fallback (sinFn : ℚ → ℚ) (w : WeatherItem) :
    extractSingleFeature sinFn w = extractSingleFeature sinFn (fillDefaults w)
    ∧ (w.allNumeric = false → extractSingleFeature sinFn w = 5) := by
  constructor
  · unfold extractSingleFeature fillDefaults
    rfl
  · intro hfalse
    unfold extractSingleFeature
    unfold WeatherItem.allNumeric at hfalse
    cases hp : w.getPressure.asNum <;> cases hs : w.getWindSpeed.asNum <;>
      cases hd : w.getWindDeg.asNum <;> cases hh : w.getHumidity.asNum <;>
      cases ht : w.getTemp.asNum <;> simp_all

/-- Witness for C3 at a concrete observation with a non-numeric pressure
field: the fallback value 5.0 is returned. -/
theorem extract_total_defaults_fallback_witness :
    extractSingleFeature (fun _ => 0) strItem = 5 :=
  (extract_total_defaults_fallback (fun _ => 0) strItem).2 (by decide)

/-- C4: the `/predict/` endpoint rejects any input whose length differs
from the configured window size (40) with an HTTP 400 client-input error,
and the result does not depend on the forecaster or the anomaly scorer —
neither model is invoked. -/
theorem predict_length_check_first (lstm lstm' : List ℚ → ℚ)
    (iso iso' : ℚ → Int) (features : List ℚ)
    (hlen : features.length ≠ EXPECTED_TIME_STEPS) :
    predict true lstm iso features
        = .error ⟨400, "Input features length must be 40"⟩
    ∧ predict true lstm iso features = predict true lstm' iso' features := by
  unfold predict
  simp [hlen]
  rfl

/-- Witness for C4: the empty feature list is rejected with the 400
length error, for two unrelated model pairs. -/
theorem predict_length_check_first_witness :
    predict true (fun _ => 0) (fun _ => 1) []
        = .error ⟨400, "Input features length must be 40"⟩
    ∧ predict true (fun _ => 0) (fun _ => 1) []
        = predict true (fun _ => 37) (fun _ => -1) [] :=
  predict_length_check_first (fun _ => 0) (fun _ => 37) (fun _ => 1)
    (fun _ => -1) [] (by decide)

/-- The anomaly-relevant part of a `/predict/` response: the raw verdict
and whether the anomaly branch of the classifier fired (the alert is the
anomaly-branch message). -/
def anomalyView (r : PredResp) : Int × Bool :=
  (r.anomaly, decide (r.alert = some anomalyAlert))

/-- On a valid-length input, `/predict/` returns the successful response
built from the two model outputs and the classifier. -/
theorem predict_ok (lstm : List ℚ → ℚ) (iso : ℚ → Int) (features : List ℚ)
    (h : features.length = EXPECTED_TIME_STEPS) :
    predict true lstm iso features =
      .ok ⟨lstm features, iso (anomalySample features),
           (classifyPredict (lstm features) (iso (anomalySample features))).1,
           (classifyPredict (lstm features) (iso (anomalySample features))).2,
           "Input Features"⟩ := by
  simp [predict, h]

/-- The alert of the classifier is the anomaly-branch message exactly when
the verdict is `-1`. -/
theorem classifyPredict_alert_iff (forecast : ℚ) (anomaly : Int) :
    (classifyPredict forecast anomaly).2 = some anomalyAlert ↔ anomaly = -1 := by
  unfold classifyPredict
  by_cases h : anomaly = -1
  · simp [h]
  · rw [if_neg h]
    simp only [h, iff_false]
    split
    · decide
    · split <;> simp

/-- C5: the anomaly scorer sees only the last feature value: for two valid
length-40 inputs agreeing on their last element, the sample fed to the
scorer is identical, the scorer output is identical, and the anomaly
verdict together with the firing of the classifier's anomaly branch is the
same in the two responses, whatever the other 39 elements (and even with
different forecasters). -/
theorem predict_anomaly_last_only (lstm lstm' : List ℚ → ℚ) (iso : ℚ → Int)
    (xs ys : List ℚ) (hx : xs.length = EXPECTED_TIME_STEPS)
    (hy : ys.length = EXPECTED_TIME_STEPS)
    (hlast : xs.getLastD 0 = ys.getLastD 0) :
    anomalySample xs = anomalySample ys
    ∧ iso (anomalySample xs) = iso (anomalySample ys)
    ∧ (predict true lstm iso xs).map anomalyView
        = (predict true lstm' iso ys).map anomalyView := by
  have hsample : anomalySample xs = anomalySample ys := hlast
  refine ⟨hsample, by rw [hsample], ?_⟩
  rw [predict_ok lstm iso xs hx, predict_ok lstm' iso ys hy, hsample]
  simp only [Except.map, anomalyView]
  congr 1
  congr 1
  rw [decide_eq_decide]
  exact (classifyPredict_alert_iff (lstm xs) (iso (anomalySample ys))).trans
    (classifyPredict_alert_iff (lstm' ys) (iso (anomalySample ys))).symm

/-- Witness for C5: two length-40 sequences that differ in all but the
last element produce the same anomaly sample, scorer output and
anomaly view. -/
theorem predict_anomaly_last_only_witness :
    anomalySample (List.replicate 40 (1 : ℚ))
        = anomalySample ((2 : ℚ) :: List.replicate 39 1)
    ∧ (fun q : ℚ => if q ≤ 0 then (-1 : Int) else 1)
          (anomalySample (List.replicate 40 (1 : ℚ)))
        = (fun q : ℚ => if q ≤ 0 then (-1 : Int) else 1)
          (anomalySample ((2 : ℚ) :: List.replicate 39 1))
    ∧ (predict true (fun l => l.sum) (fun q => if q ≤ 0 then -1 else 1)
          (List.replicate 40 (1 : ℚ))).map anomalyView
        = (predict true (fun _ => 0) (fun q => if q ≤ 0 then -1 else 1)
          ((2 : ℚ) :: List.replicate 39 1)).map anomalyView :=
  predict_anomaly_last_only (fun l => l.sum) (fun _ => 0)
    (fun q => if q ≤ 0 then -1 else 1)
    (List.replicate 40 (1 : ℚ)) ((2 : ℚ) :: List.replicate 39 1)
    (by decide) (by decide) (by decide)

/-- C6: evaluation of `/predict-live/` at a failing input — a forecast
list of only 10 items.  The windowing keeps the last 40 elements, there
are fewer than 40, and the `HTTPException(400, "Not enough forecast data
for prediction")` raised inside the `try` block is caught by the blanket
`except Exception` and surfaces as an HTTP 500 server error — not as the
client-input (400) error the claim describes. -/
theorem predictLive_insufficient_is_500 :
    predictLive (fun _ => 0) (fun _ => 0) (fun _ => 1) (List.replicate 10 emptyItem)
      = .error ⟨500, "Live prediction error: " ++ notEnoughStr⟩ := by
  rfl

/-- C7: the extractor output is non-negative on every observation, and the
floor of 0 is attained on the extreme observation with pressure 2000 (other
fields at their defaults). -/
theorem extract_nonneg (sinFn : ℚ → ℚ) (w : WeatherItem) :
    0 ≤ extractSingleFeature sinFn w
    ∧ extractSingleFeature sinFn (mkNumItem 2000 0 0 50 15) = 0 := by
  constructor
  · unfold extractSingleFeature
    split
    · exact le_max_left 0 _
    · norm_num
  · norm_num [extractSingleFeature, mkNumItem, WeatherItem.getPressure,
      WeatherItem.getWindSpeed, WeatherItem.getWindDeg, WeatherItem.getHumidity,
      WeatherItem.getTemp, JVal.asNum]

/-- C8 counterexample: the batch extractor is not length-preserving — an
observation without the `'main'` block is skipped, so one observation in
gives zero features out. -/
theorem extractBatch_not_length_preserving :
    ¬ ((extractFloodRiskFeatures (fun _ => 0) [emptyItem]).length
        = [emptyItem].length) := by
  decide

/-- C8 (amended): for every list of observations in which each observation
contains the `'main'` block, the batch extractor returns the same-length,
same-order, elementwise image of the single-observation extractor;
observations without `'main'` are skipped. -/
theorem extractBatch_elementwise (sinFn : ℚ → ℚ) (ws : List WeatherItem)
    (h : ∀ w ∈ ws, w.main.isSome) :
    extractFloodRiskFeatures sinFn ws = ws.map (extractSingleFeature sinFn) := by
  unfold extractFloodRiskFeatures
  rw [List.filter_eq_self.mpr (fun w hw => h w hw)]

/-- Witness for the amended C8 at a one-element list with `'main'`
present. -/
theorem extractBatch_elementwise_witness :
    extractFloodRiskFeatures (fun _ => 0) [mkNumItem 1000 1 90 60 20]
      = [mkNumItem 1000 1 90 60 20].map (extractSingleFeature (fun _ => 0)) :=
  extractBatch_elementwise (fun _ => 0) [mkNumItem 1000 1 90 60 20] (by decide)

/-- Two observations that agree on the pressure, wind-speed, humidity and
temperature fields, and whose wind-direction values are numeric (after
defaulting), extract to the same feature — the dead `wind_pressure`
binding is the only consumer of the direction. -/
theorem extract_congr (sinFn₁ sinFn₂ : ℚ → ℚ) (w₁ w₂ : WeatherItem)
    (hp : w₁.getPressure = w₂.getPressure)
    (hs : w₁.getWindSpeed = w₂.getWindSpeed)
    (hh : w₁.getHumidity = w₂.getHumidity)
    (ht : w₁.getTemp = w₂.getTemp)
    (hd₁ : w₁.getWindDeg.asNum.isSome)
    (hd₂ : w₂.getWindDeg.asNum.isSome) :
    extractSingleFeature sinFn₁ w₁ = extractSingleFeature sinFn₂ w₂ := by
  unfold extractSingleFeature
  rw [hp, hs, hh, ht]
  rcases e₁ : w₁.getWindDeg.asNum with _ | q₁
  · simp [e₁] at hd₁
  rcases e₂ : w₂.getWindDeg.asNum with _ | q₂
  · simp [e₂] at hd₂
  cases w₂.getPressure.asNum <;> cases w₂.getWindSpeed.asNum <;>
    cases w₂.getHumidity.asNum <;> cases w₂.getTemp.asNum <;> rfl

/-- C9: the feature does not depend on the wind direction: two
observations sharing the same `main` block and the same wind speed but any
two (possibly absent) numeric wind directions — and even any two `sin`
implementations — extract to the same value. -/
theorem extract_ignores_wind_direction (sinFn₁ sinFn₂ : ℚ → ℚ)
    (m : Option MainData) (sp : Option JVal) (d₁ d₂ : Option ℚ) :
    extractSingleFeature sinFn₁ ⟨m, some ⟨sp, d₁.map .num⟩⟩
      = extractSingleFeature sinFn₂ ⟨m, some ⟨sp, d₂.map .num⟩⟩ := by
  apply extract_congr
  · rfl
  · rfl
  · rfl
  · rfl
  · cases d₁ <;> rfl
  · cases d₂ <;> rfl

/-- C10: the duplicated risk-classification blocks of the two endpoints
(`/predict/` and `/predict-live/`) denote the same function: same
`risk_level` and same `alert` for every forecast value and every anomaly
verdict. -/
theorem classify_duplicates_agree (forecast : ℚ) (anomaly : Int) :
    classifyPredict forecast anomaly = classifyLive forecast anomaly := rfl

end BlueShield
